import Mathlib

/-!
Shallow embedding of the two view components of this repository:
the tutorial panel (`app/src/ui/tutorial-panel/tutorial-panel.tsx`) and the
usage opt-out form (`app/src/ui/welcome/usage-opt-out.tsx`).

Pure query functions become Lean functions; the React component state of the
panel becomes a record together with an explicit step function over events
(property updates and summary clicks).  Dispatcher calls and callbacks become
values of an effect type returned by the handlers.
-/

/-- Modelled from the spec: the module `app/src/models/tutorial-step`
(declaring `TutorialStep`, `ValidTutorialStep` and `orderedTutorialSteps`)
is not among the provided sources.  The spec fixes a totally ordered
sequence of six named stages. -/
inductive TutorialStep where
  | PickEditor
  | CreateBranch
  | EditFile
  | MakeCommit
  | PushBranch
  | OpenPullRequest
deriving DecidableEq, Fintype

/-- Modelled from the spec: the canonical progression sequence
(PickEditor, CreateBranch, EditFile, MakeCommit, PushBranch,
OpenPullRequest), order significant and fixed. -/
def orderedTutorialSteps : List TutorialStep :=
  [ TutorialStep.PickEditor
  , TutorialStep.CreateBranch
  , TutorialStep.EditFile
  , TutorialStep.MakeCommit
  , TutorialStep.PushBranch
  , TutorialStep.OpenPullRequest ]

/-- Spec-side definition: the position of a step in the canonical ordered
sequence of six tutorial steps, written out directly (not via the list) so
that theorems relating the code to the spec wording are not restatements. -/
def stepIndex : TutorialStep → Nat
  | TutorialStep.PickEditor => 0
  | TutorialStep.CreateBranch => 1
  | TutorialStep.EditFile => 2
  | TutorialStep.MakeCommit => 3
  | TutorialStep.PushBranch => 4
  | TutorialStep.OpenPullRequest => 5

/-- The observable data of a `TutorialPanel` instance: the externally
supplied prop `currentTutorialStep` together with the local component state
`currentlyOpenSectionId` (`ITutorialPanelState`). -/
structure TutorialPanelModel where
  currentTutorialStep : TutorialStep
  currentlyOpenSectionId : TutorialStep
deriving DecidableEq, Fintype

namespace TutorialPanel

/-- `TutorialPanel.constructor`: initial state is
`{ currentlyOpenSectionId: this.props.currentTutorialStep }`. -/
def init (currentTutorialStep : TutorialStep) : TutorialPanelModel :=
  { currentTutorialStep := currentTutorialStep
  , currentlyOpenSectionId := currentTutorialStep }

/-- `TutorialPanel.isStepComplete`:
`orderedTutorialSteps.indexOf(step) < orderedTutorialSteps.indexOf(this.props.currentTutorialStep)`. -/
def isStepComplete (currentTutorialStep step : TutorialStep) : Bool :=
  decide (orderedTutorialSteps.indexOf step <
    orderedTutorialSteps.indexOf currentTutorialStep)

/-- `TutorialPanel.isStepNextTodo`: `step === this.props.currentTutorialStep`. -/
def isStepNextTodo (currentTutorialStep step : TutorialStep) : Bool :=
  step == currentTutorialStep

/-- `TutorialPanel.componentWillReceiveProps`: after the update the props are
`nextProps`; the local state is reset to `nextProps.currentTutorialStep`
exactly when it differs from the previous `currentTutorialStep`. -/
def componentWillReceiveProps (m : TutorialPanelModel)
    (next : TutorialStep) : TutorialPanelModel :=
  if m.currentTutorialStep != next then
    { currentTutorialStep := next, currentlyOpenSectionId := next }
  else
    { m with currentTutorialStep := next }

/-- `TutorialPanel.onStepSummaryClick`:
`this.setState({ currentlyOpenSectionId: id })`. -/
def onStepSummaryClick (m : TutorialPanelModel)
    (id : TutorialStep) : TutorialPanelModel :=
  { m with currentlyOpenSectionId := id }

end TutorialPanel

/-- The two kinds of events a mounted `TutorialPanel` reacts to: a property
update delivering a (possibly unchanged) `currentTutorialStep`, and a click
on the summary of the section `id`. -/
inductive PanelEvent where
  | receiveProps (next : TutorialStep)
  | summaryClick (id : TutorialStep)
deriving DecidableEq

/-- One transition of the panel on an event. -/
def panelStep (m : TutorialPanelModel) : PanelEvent → TutorialPanelModel
  | PanelEvent.receiveProps next => TutorialPanel.componentWillReceiveProps m next
  | PanelEvent.summaryClick id => TutorialPanel.onStepSummaryClick m id

/-- Run of the panel over a sequence of events. -/
def runPanel (m : TutorialPanelModel) : List PanelEvent → TutorialPanelModel
  | [] => m
  | e :: es => runPanel (panelStep m e) es

/-- `TutorialStepInstructions.render`: the `open` flag of the `details`
element of the section `sectionId` is
`this.props.sectionId === this.props.currentlyOpenSectionId`. -/
def detailsOpen (m : TutorialPanelModel) (sectionId : TutorialStep) : Bool :=
  sectionId == m.currentlyOpenSectionId

/-- `TutorialPanel.render` passes a `skipLinkButton` element exactly to the
`PickEditor` and `OpenPullRequest` instances of `TutorialStepInstructions`;
the other four receive none (`undefined`). -/
def skipLinkButtonProvided : TutorialStep → Bool
  | TutorialStep.PickEditor => true
  | TutorialStep.OpenPullRequest => true
  | _ => false

/-- `TutorialStepInstructions.renderSummary`: `shouldShowSkipLink` is
`skipLinkButton !== undefined && currentlyOpenSectionId === sectionId &&
isNextStepTodo(sectionId)`. -/
def shouldShowSkipLink (m : TutorialPanelModel) (sectionId : TutorialStep) : Bool :=
  skipLinkButtonProvided sectionId &&
    m.currentlyOpenSectionId == sectionId &&
    TutorialPanel.isStepNextTodo m.currentTutorialStep sectionId

/-- The three possible status icons of a step, named after the CSS classes
used by `renderTutorialStepIcon`. -/
inductive StepIcon where
  | greenCircleCheck
  | blueCircle (stepNumber : Nat)
  | emptyCircle (stepNumber : Nat)
deriving DecidableEq

/-- `TutorialStepInstructions.renderTutorialStepIcon`: completed check mark
if `isComplete`, else the 1-based step number
(`orderedTutorialSteps.indexOf(sectionId) + 1`) in a blue circle if
`isNextStepTodo`, else in an empty circle. -/
def renderTutorialStepIcon (m : TutorialPanelModel)
    (sectionId : TutorialStep) : StepIcon :=
  if TutorialPanel.isStepComplete m.currentTutorialStep sectionId then
    StepIcon.greenCircleCheck
  else
    let stepNumber := orderedTutorialSteps.indexOf sectionId + 1
    if TutorialPanel.isStepNextTodo m.currentTutorialStep sectionId then
      StepIcon.blueCircle stepNumber
    else
      StepIcon.emptyCircle stepNumber

/-- Modelled from the spec: the `WelcomeStep` enumeration from
`app/src/ui/welcome/welcome` is not among the provided sources; the spec
names a fixed git-configuration step as the cancel target of the opt-out
form, and the form itself is one of the wizard steps. -/
inductive WelcomeStep where
  | ConfigureGit
  | UsageOptOut
deriving DecidableEq

/-- Modelled from the spec: the `CheckboxValue` enumeration from
`app/src/ui/lib/checkbox` is not among the provided sources; the form uses
its two values `On` (checked) and `Off` (unchecked). -/
inductive CheckboxValue where
  | On
  | Off
deriving DecidableEq

/-- The outbound effects of the opt-out form: the dispatcher command
`setStatsOptOut`, the `advance` wizard callback, and the `done` completion
callback. -/
inductive UsageOptOutEffect where
  | setStatsOptOut (optOut : Bool)
  | advance (step : WelcomeStep)
  | doneCallback
deriving DecidableEq

/-- The data-bearing part of `IUsageOptOutProps`: the externally supplied
opt-out flag (dispatcher and callbacks are modelled by the effect type). -/
structure IUsageOptOutProps where
  optOut : Bool
deriving DecidableEq, Fintype

namespace UsageOptOut

/-- `UsageOptOut.render`: the checkbox value is
`this.props.optOut ? CheckboxValue.Off : CheckboxValue.On`.
The component state type is `void`: there is no local state at all. -/
def checkboxValue (props : IUsageOptOutProps) : CheckboxValue :=
  if props.optOut then CheckboxValue.Off else CheckboxValue.On

/-- `UsageOptOut.onChange`: reads the new checked value of the checkbox and
issues `dispatcher.setStatsOptOut(!value)`; the returned list holds every
effect of the handler, in order. -/
def onChange (checked : Bool) : List UsageOptOutEffect :=
  [ UsageOptOutEffect.setStatsOptOut (!checked) ]

/-- `UsageOptOut.cancel`: `this.props.advance(WelcomeStep.ConfigureGit)`. -/
def cancel (_props : IUsageOptOutProps) : List UsageOptOutEffect :=
  [ UsageOptOutEffect.advance WelcomeStep.ConfigureGit ]

/-- `UsageOptOut.finish` (the form submit handler): `this.props.done()`. -/
def finish (_props : IUsageOptOutProps) : List UsageOptOutEffect :=
  [ UsageOptOutEffect.doneCallback ]

end UsageOptOut

/-! ## Helper lemmas -/

/-- Delivering an unchanged `currentTutorialStep` leaves the whole panel
model unchanged. -/
theorem componentWillReceiveProps_self (m : TutorialPanelModel) :
    TutorialPanel.componentWillReceiveProps m m.currentTutorialStep = m := by
  simp [TutorialPanel.componentWillReceiveProps]

/-- A run consisting only of property updates that re-supply the current
`currentTutorialStep` leaves the panel model unchanged. -/
theorem runPanel_stable (m : TutorialPanelModel) (es : List PanelEvent)
    (h : ∀ e ∈ es, e = PanelEvent.receiveProps m.currentTutorialStep) :
    runPanel m es = m := by
  induction es with
  | nil => rfl
  | cons e es ih =>
    have he : e = PanelEvent.receiveProps m.currentTutorialStep := h e (by simp)
    have hstep : panelStep m e = m := by
      rw [he]
      exact componentWillReceiveProps_self m
    show runPanel (panelStep m e) es = m
    rw [hstep]
    exact ih (fun e' he' => h e' (by simp [he']))

/-- Among the six (pairwise distinct) tutorial steps, at most one is equal
to any given value. -/
theorem filter_beq_length_le_one (x : TutorialStep) :
    (orderedTutorialSteps.filter (fun s => s == x)).length ≤ 1 := by
  cases x <;> decide

/-! ## Claim theorems -/

/-- C1: the initially expanded step equals the initially supplied
`currentTutorialStep`; on every property update the props become the newly
supplied value, and the expanded step is reset to that value exactly when it
differs from the previous `currentTutorialStep`, otherwise it is left
as-is. -/
theorem claim_C1 (c : TutorialStep) (m : TutorialPanelModel)
    (next : TutorialStep) :
    (TutorialPanel.init c).currentlyOpenSectionId = c ∧
    (TutorialPanel.componentWillReceiveProps m next).currentTutorialStep = next ∧
    (TutorialPanel.componentWillReceiveProps m next).currentlyOpenSectionId =
      (if next ≠ m.currentTutorialStep then next else m.currentlyOpenSectionId) := by
  refine ⟨rfl, ?_, ?_⟩
  · by_cases h : m.currentTutorialStep = next <;>
      simp [TutorialPanel.componentWillReceiveProps, h]
  · by_cases h : m.currentTutorialStep = next
    · simp [TutorialPanel.componentWillReceiveProps, h]
    · have h' : next ≠ m.currentTutorialStep := fun hn => h hn.symm
      simp [TutorialPanel.componentWillReceiveProps, h, h']

/-- C2: for every step and every externally supplied current step,
`isStepComplete step` holds exactly when the canonical position of the step
is strictly below the canonical position of the current step. -/
theorem claim_C2 : ∀ cur step : TutorialStep,
    TutorialPanel.isStepComplete cur step = decide (stepIndex step < stepIndex cur) := by
  decide

/-- C3: for every externally supplied current step, `isStepNextTodo` holds
for exactly one of the six steps, namely the one equal to the current step,
and fails for the other five. -/
theorem claim_C3 : ∀ cur : TutorialStep,
    (orderedTutorialSteps.filter
      (fun step => TutorialPanel.isStepNextTodo cur step)).length = 1 ∧
    ∀ step : TutorialStep,
      TutorialPanel.isStepNextTodo cur step = true ↔ step = cur := by
  decide

/-- C4: the skip link of a section is shown exactly when the section is
PickEditor or OpenPullRequest, the expanded step equals that section, and
the externally supplied current step equals that section; so for the other
four steps it is never shown. -/
theorem claim_C4 : ∀ (m : TutorialPanelModel) (step : TutorialStep),
    shouldShowSkipLink m step = true ↔
      ((step = TutorialStep.PickEditor ∨ step = TutorialStep.OpenPullRequest) ∧
        m.currentlyOpenSectionId = step ∧ m.currentTutorialStep = step) := by
  decide

/-- C5: a click on the summary of step X sets the expanded step to X
unconditionally, and it remains X over any further events as long as those
are only property updates re-supplying the unchanged current step (no other
click, no change of the supplied value). -/
theorem claim_C5 (m : TutorialPanelModel) (X : TutorialStep)
    (es : List PanelEvent)
    (h : ∀ e ∈ es, e = PanelEvent.receiveProps m.currentTutorialStep) :
    (TutorialPanel.onStepSummaryClick m X).currentlyOpenSectionId = X ∧
    (runPanel (TutorialPanel.onStepSummaryClick m X) es).currentlyOpenSectionId = X := by
  refine ⟨rfl, ?_⟩
  rw [runPanel_stable (TutorialPanel.onStepSummaryClick m X) es h]
  rfl

theorem claim_C5_witness :
    (TutorialPanel.onStepSummaryClick
      (TutorialPanel.init TutorialStep.PickEditor)
      TutorialStep.EditFile).currentlyOpenSectionId = TutorialStep.EditFile ∧
    (runPanel (TutorialPanel.onStepSummaryClick
        (TutorialPanel.init TutorialStep.PickEditor) TutorialStep.EditFile)
      [PanelEvent.receiveProps TutorialStep.PickEditor]).currentlyOpenSectionId
        = TutorialStep.EditFile :=
  claim_C5 (TutorialPanel.init TutorialStep.PickEditor) TutorialStep.EditFile
    [PanelEvent.receiveProps TutorialStep.PickEditor] (by decide)

/-- C6: the rendered checkbox is checked exactly when the supplied opt-out
flag is false, and each toggle issues exactly one `setStatsOptOut` command
carrying the negation of the new checked value. -/
theorem claim_C6 : ∀ (props : IUsageOptOutProps) (checked : Bool),
    (UsageOptOut.checkboxValue props = CheckboxValue.On ↔ props.optOut = false) ∧
    (UsageOptOut.onChange checked).length = 1 ∧
    UsageOptOut.onChange checked = [UsageOptOutEffect.setStatsOptOut (!checked)] := by
  decide

/-- C7: submitting invokes the done callback exactly once with no argument,
canceling invokes the advance callback exactly once with the fixed
git-configuration step, and in both cases the effects are the same for every
value of the supplied opt-out flag. -/
theorem claim_C7 : ∀ props : IUsageOptOutProps,
    UsageOptOut.cancel props = [UsageOptOutEffect.advance WelcomeStep.ConfigureGit] ∧
    (UsageOptOut.cancel props).length = 1 ∧
    UsageOptOut.finish props = [UsageOptOutEffect.doneCallback] ∧
    (UsageOptOut.finish props).length = 1 := by
  decide

/-- C8: the status icon of a step is the completed check mark when the
canonical position of the step is below that of the current step, else the
highlighted blue circle with the 1-based canonical position when the step
equals the current step, else the plain empty circle with the same 1-based
position. -/
theorem claim_C8 : ∀ (m : TutorialPanelModel) (step : TutorialStep),
    renderTutorialStepIcon m step =
      (if stepIndex step < stepIndex m.currentTutorialStep then
        StepIcon.greenCircleCheck
      else if step = m.currentTutorialStep then
        StepIcon.blueCircle (stepIndex step + 1)
      else
        StepIcon.emptyCircle (stepIndex step + 1)) := by
  decide

/-- C9: in every state reachable from the initial state by any sequence of
summary clicks and property updates, at most one of the six sections has a
true open flag, and a section is open exactly when its identifier equals the
single locally stored expanded step. -/
theorem claim_C9 (c : TutorialStep) (es : List PanelEvent) :
    (orderedTutorialSteps.filter
      (fun s => detailsOpen (runPanel (TutorialPanel.init c) es) s)).length ≤ 1 ∧
    ∀ s, detailsOpen (runPanel (TutorialPanel.init c) es) s = true ↔
      s = (runPanel (TutorialPanel.init c) es).currentlyOpenSectionId := by
  constructor
  · exact filter_beq_length_le_one (runPanel (TutorialPanel.init c) es).currentlyOpenSectionId
  · intro s
    simp [detailsOpen]

/-- C10: for every step and every current step, `isStepComplete` and
`isStepNextTodo` are never both true, so the three-way status
classification is unambiguous. -/
theorem claim_C10 : ∀ cur step : TutorialStep,
    (TutorialPanel.isStepComplete cur step &&
      TutorialPanel.isStepNextTodo cur step) = false := by
  decide
